import Mathlib

/-!
Verification of the semantic decoding layer of `antio/io.py`.

The file shallowly embeds the four functions of the module —
`_parse_channels`, `_parse_data`, `_parse_triggers` and `RawANT.__init__` —
over explicit Lean data.  Machine floats are modelled as exact rationals
(`Rat`); NumPy arrays as lists of rows; Python exceptions as `Except String`.
External collaborators (the libeep container reader, the `re` module, MNE)
are modelled by explicit structures: the container is an `InputCNT` record,
a compiled pattern is a small regular-expression AST with Brzozowski
derivative matching, and the MNE calls are treated as pure packaging.
-/

namespace Antio

/-! ### A model of `re` patterns and `re.fullmatch`

`_parse_channels` compiles the optional `eog`/`misc` pattern strings with
`re.compile` and tests names with `re.fullmatch`.  We model a compiled
pattern as a regular-expression AST and full matching by Brzozowski
derivatives: `fullmatch r s` is true iff `s` as a whole is in the language
of `r` (not merely a substring, mirroring `re.fullmatch`). -/

inductive Regex where
  | emp : Regex
  | eps : Regex
  | chr : Char → Regex
  | dot : Regex
  | cat : Regex → Regex → Regex
  | alt : Regex → Regex → Regex
  | star : Regex → Regex
deriving DecidableEq, Repr

def Regex.nullable : Regex → Bool
  | .emp => false
  | .eps => true
  | .chr _ => false
  | .dot => false
  | .cat a b => a.nullable && b.nullable
  | .alt a b => a.nullable || b.nullable
  | .star _ => true

def Regex.deriv : Regex → Char → Regex
  | .emp, _ => .emp
  | .eps, _ => .emp
  | .chr c, x => if x = c then .eps else .emp
  | .dot, _ => .eps
  | .cat a b, x =>
      if a.nullable then .alt (.cat (a.deriv x) b) (b.deriv x)
      else .cat (a.deriv x) b
  | .alt a b, x => .alt (a.deriv x) (b.deriv x)
  | .star a, x => .cat (a.deriv x) (.star a)

def Regex.matchChars : Regex → List Char → Bool
  | r, [] => r.nullable
  | r, c :: cs => (r.deriv c).matchChars cs

/-- Model of `re.fullmatch(r, s)` returning whether the whole string matches. -/
def re_fullmatch (r : Regex) (s : String) : Bool := r.matchChars s.data

/-- The pattern `"EOG"`: three literal characters. -/
def reEOG : Regex := .cat (.chr 'E') (.cat (.chr 'O') (.chr 'G'))

/-- The pattern `"EOG.*"`: the literal `EOG` followed by any characters. -/
def reEOGdotstar : Regex := .cat reEOG (.star .dot)

/-! ### Small models of Python string primitives -/

/-- Model of `str.lower()` (ASCII, which covers unit and condition strings). -/
def strLower (s : String) : String := ⟨s.data.map Char.toLower⟩

/-- Model of `str.split(" ")`: split at every single space, keeping empties. -/
def splitSpaces : List Char → List (List Char)
  | [] => [[]]
  | c :: t =>
      if c = ' ' then [] :: splitSpaces t
      else
        match splitSpaces t with
        | g :: gs => (c :: g) :: gs
        | [] => [[c]]

def digitsVal : List Char → Option Nat
  | [] => some 0
  | c :: t =>
      if c.isDigit then
        (digitsVal t).map (fun n => (c.toNat - 48) * 10 ^ t.length + n)
      else none

/-- Model of Python `float()` on a plain decimal literal: optional sign,
integer digits, optional fractional digits.  (Scientific notation, `inf`
and `nan` are accepted by Python but are not needed for the inputs this
module feeds to `float`.)  Returns `none` where Python raises `ValueError`. -/
def parseFloatChars (cs : List Char) : Option Rat :=
  let sgn : Rat × List Char :=
    match cs with
    | '-' :: t => (-1, t)
    | '+' :: t => (1, t)
    | t => (1, t)
  let ip := sgn.2.takeWhile (fun c => c ≠ '.')
  let rest := sgn.2.drop ip.length
  match rest with
  | [] =>
      if ip = [] then none
      else (digitsVal ip).map (fun n => sgn.1 * n)
  | '.' :: fp =>
      if ip = [] ∧ fp = [] then none
      else
        match digitsVal ip, digitsVal fp with
        | some n, some m => some (sgn.1 * ((n : Rat) + (m : Rat) / 10 ^ fp.length))
        | _, _ => none
  | _ => none

def parseFloatList : List (List Char) → Option (List Rat)
  | [] => some []
  | g :: gs =>
      match parseFloatChars g, parseFloatList gs with
      | some v, some vs => some (v :: vs)
      | _, _ => none

/-- Model of `[float(elt) for elt in s.split(" ")]`; `none` on `ValueError`. -/
def parseFloats (s : String) : Option (List Rat) :=
  parseFloatList (splitSpaces s.data)

/-! ### The raw container (`InputCNT`)

The libeep reader is out of scope; it is the opaque collaborator exposing
channel tuples, the flat sample block, the sampling frequency and trigger
tuples.  `samples` is the flat block returned by `get_samples(0, n_samples)`
(sample-major: one sample = `n_channels` consecutive values, as the inline
comment `# sample = (n_channels,)` records). -/

structure Trigger where
  code : String
  idx : Nat
  duration : Nat
  condition : Option String
  description : Option String
  impedance : Option String
deriving DecidableEq, Repr

structure InputCNT where
  channels : List (String × String × String)
  sample_frequency : Rat
  nsamples : Nat
  samples : List Rat
  triggers : List Trigger
deriving DecidableEq, Repr

/-! ### `_parse_channels` -/

/-- Model of the classification branch of `_parse_channels` (io.py lines
94-99): `eog` is tried with `re.fullmatch` first, then `misc`, and a name
matching neither pattern falls through to `"eeg"`. -/
def classifyChannel (eog misc : Option Regex) (name : String) : String :=
  if (match eog with | some r => re_fullmatch r name | none => false) then "eog"
  else if (match misc with | some r => re_fullmatch r name | none => false) then "misc"
  else "eeg"

structure ParsedChannels where
  ch_names : List String
  ch_units : List String
  ch_refs : List String
  ch_types : List String
  refWarning : Bool
  refNote : Option String
deriving DecidableEq, Repr

/-- Model of `_parse_channels`: collects names, lower-cased units, references
and types in container order; then `len(set(ch_refs)) == 1` decides between
the informational log naming `ch_refs[0]` (modelled as `refNote`) and the
non-uniform-reference warning (modelled as `refWarning`). -/
def _parse_channels (cnt : InputCNT) (eog misc : Option Regex) : ParsedChannels :=
  let ch_names := cnt.channels.map (fun c => c.1)
  let ch_units := cnt.channels.map (fun c => strLower c.2.1)
  let ch_refs := cnt.channels.map (fun c => c.2.2)
  let ch_types := cnt.channels.map (fun c => classifyChannel eog misc c.1)
  let uniform := ch_refs.dedup.length = 1
  { ch_names := ch_names
    ch_units := ch_units
    ch_refs := ch_refs
    ch_types := ch_types
    refWarning := ! uniform
    refNote := if uniform then some (ch_refs.getD 0 "") else none }

/-! ### `_parse_data` -/

/-- The module-level dict `units = {"uv": 1e-6}` of io.py line 27. -/
def units : List (String × Rat) := [("uv", 1 / 1000000)]

/-- Wrap-around of `np.array(value, dtype=np.int16)` on one index (io.py
line 119): the value is reduced modulo 2^16 into [-32768, 32767]. -/
def int16cast (i : Nat) : Int := ((i + 32768 : Int) % 65536) - 32768

/-- NumPy row indexing with a possibly negative integer: a negative index
counts from the end; out of range raises `IndexError`. -/
def npTake (n : Nat) (j : Int) : Except String Nat :=
  if 0 ≤ j then
    if j < (n : Int) then .ok j.toNat
    else .error "IndexError: index out of bounds"
  else
    if 0 ≤ j + (n : Int) then .ok (j + (n : Int)).toNat
    else .error "IndexError: index out of bounds"

/-- The channel indices collected for unit `u` by the
`units_index[unit].append(idx)` loop of io.py lines 114-116. -/
def groupIdxs (ch_units : List String) (u : String) : List Nat :=
  (List.range ch_units.length).filter (fun i => ch_units.getD i "" == u)

/-- Model of the in-place `data[rows, :] *= f` on a row matrix: every row
whose index is selected is multiplied elementwise by `f` (NumPy's buffered
fancy-index assignment applies the factor once even to duplicated indices). -/
def scaleRows (d : List (List Rat)) (rows : List Nat) (f : Rat) : List (List Rat) :=
  (List.range d.length).map
    (fun r => if r ∈ rows then (d.getD r []).map (fun x => x * f) else d.getD r [])

/-- The keys of a Python dict built by insertion: first-occurrence order,
modelling iteration over `units_index` (a `defaultdict` keyed by unit). -/
def insertionKeys (l : List String) : List String :=
  l.foldl (fun acc u => if u ∈ acc then acc else acc ++ [u]) []

/-- Resolution of `np.array(value, dtype=np.int16)` used as a row index
list: each collected channel index is cast to int16 and then resolved
against the matrix's first axis, left to right, stopping at the first
`IndexError`. -/
def takeRows (n : Nat) (l : List Nat) : Except String (List Nat) :=
  l.foldr
    (fun i acc =>
      match npTake n (int16cast i) with
      | .error e => .error e
      | .ok r =>
          match acc with
          | .error e => .error e
          | .ok rs => .ok (r :: rs))
    (.ok [])

/-- One iteration of the `for unit, value in units_index.items()` loop of
io.py lines 117-121: a recognized unit scales the selected rows in place
(indices first cast to `np.int16`), an unrecognized unit records one
warning. -/
def scaleStep (ch_units : List String) (acc : List (List Rat) × List String)
    (u : String) : Except String (List (List Rat) × List String) :=
  match units.lookup u with
  | some f => do
      let rows ← takeRows acc.1.length (groupIdxs ch_units u)
      .ok (scaleRows acc.1 rows f, acc.2)
  | none => .ok (acc.1, acc.2 ++ ["Unit " ++ u ++ " not recognized, not scaling."])

/-- The whole scaling loop of io.py lines 113-121 applied to a row matrix. -/
def applyScaling (data : List (List Rat)) (ch_units : List String) :
    Except String (List (List Rat) × List String) :=
  (insertionKeys ch_units).foldlM (scaleStep ch_units) (data, [])

/-- Model of `np.array(data).reshape(n_channels, -1).T` (io.py line 112) on
the flat sample block: NumPy rejects `-1` when the array is empty and the
known dimension is 0, and rejects a length not divisible by `n_channels`;
otherwise the result has `len / n_channels` rows (one per sample) of
`n_channels` entries, `B[j][i] = flat[i * ns + j]`. -/
def reshapeT (nch : Nat) (flat : List Rat) : Except String (List (List Rat)) :=
  if nch = 0 then .error "ValueError: cannot reshape array"
  else if flat.length % nch ≠ 0 then .error "ValueError: cannot reshape array"
  else
    let ns := flat.length / nch
    .ok ((List.range ns).map (fun j => (List.range nch).map (fun i => flat.getD (i * ns + j) 0)))

/-- Model of `_parse_data` (io.py lines 107-122): reshape-and-transpose the
raw block, then run the unit-scaling loop; returns the matrix together with
the not-recognized-unit warnings. -/
def _parse_data (cnt : InputCNT) (ch_units : List String) :
    Except String (List (List Rat) × List String) := do
  let data ← reshapeT cnt.channels.length cnt.samples
  applyScaling data ch_units

/-! ### `_parse_triggers` -/

structure TriggerAcc where
  onsets : List Nat
  durations : List Nat
  descriptions : List String
  impedances : List (Nat × List Rat)
  disconnectStart : List Nat
  disconnectStop : List Nat
deriving DecidableEq, Repr

def TriggerAcc.init : TriggerAcc :=
  { onsets := [], durations := [], descriptions := [],
    impedances := [], disconnectStart := [], disconnectStop := [] }

/-- The ordinary-trigger tail of the loop body (io.py lines 154-160):
append onset and duration, and the description when it is not `None`,
otherwise the code. -/
def ordinaryTrigger (acc : TriggerAcc) (t : Trigger) : TriggerAcc :=
  { acc with
    onsets := acc.onsets ++ [t.idx]
    durations := acc.durations ++ [t.duration]
    descriptions := acc.descriptions ++
      [match t.description with | some d => d | none => t.code] }

/-- The amplifier disconnect/reconnect branches of the loop body (io.py
lines 147-153), falling through to `ordinaryTrigger`. -/
def conditionTrigger (acc : TriggerAcc) (t : Trigger) : TriggerAcc :=
  match t.condition with
  | some c =>
      if strLower c = "amplifier disconnected" then
        { acc with disconnectStart := acc.disconnectStart ++ [t.idx] }
      else if strLower c = "amplifier reconnected" then
        { acc with disconnectStop := acc.disconnectStop ++ [t.idx] }
      else ordinaryTrigger acc t
  | none => ordinaryTrigger acc t

/-- One iteration of the trigger loop body (io.py lines 133-160).  In the
impedance branch the code runs `impedances[idx] = [float(elt) for elt in
impedance.split(" ")]` (a malformed float raises `ValueError`) and then
`description.append("BAD_impedance")` — but `description` is a `str`, which
has no `append`, so the branch raises `AttributeError` whenever it is
reached with a parseable impedance string. -/
def parseTriggerStep (acc : TriggerAcc) (t : Trigger) : Except String TriggerAcc :=
  match t.description, t.impedance with
  | some d, some imp =>
      if strLower d = "impedance" then
        match parseFloats imp with
        | none => .error "ValueError: could not convert string to float"
        | some _vals => .error "AttributeError: str object has no attribute append"
      else .ok (conditionTrigger acc t)
  | _, _ => .ok (conditionTrigger acc t)

/-- The trigger loop of io.py lines 133-160 run over a trigger list,
starting from empty accumulators — i.e. the body of `_parse_triggers` as if
its accumulator initialisation bound three empty lists.  The returned
record also carries the `disconnect` dict, which the function's `return`
statement (line 161) discards. -/
def _parse_triggers_body (ts : List Trigger) : Except String TriggerAcc :=
  ts.foldlM parseTriggerStep TriggerAcc.init

/-- Model of `_parse_triggers` itself.  Its first statement after
`n_triggers = cnt.get_trigger_count()` is
`onsets, durations, descriptions = [], [], [], []` (io.py line 130), which
unpacks a 4-tuple of empty lists into three targets: Python raises
`ValueError: too many values to unpack (expected 3)` before the loop runs,
on every input. -/
def _parse_triggers (cnt : InputCNT) :
    Except String (List Nat × List Nat × List String × List (Nat × List Rat)) :=
  let _n_triggers := cnt.triggers.length
  .error "ValueError: too many values to unpack (expected 3)"

/-! ### `RawANT.__init__` -/

structure Recording where
  ch_names : List String
  ch_types : List String
  sfreq : Rat
  data : List (List Rat)
  annOnsets : List Rat
  annDurations : List Rat
  annDescriptions : List String
deriving DecidableEq, Repr

/-- Model of `RawANT.__init__` (io.py lines 56-78): parse channels, parse
and scale the data, parse the triggers, divide onsets and durations by the
sampling frequency, and package the record.  The MNE calls (`create_info`,
`BaseRaw.__init__`, `Annotations`, `set_annotations`) are external
collaborators modelled as pure packaging. -/
def RawANT_init (cnt : InputCNT) (eog misc : Option Regex) : Except String Recording := do
  let pc := _parse_channels cnt eog misc
  let dw ← _parse_data cnt pc.ch_units
  let tr ← _parse_triggers cnt
  .ok { ch_names := pc.ch_names
        ch_types := pc.ch_types
        sfreq := cnt.sample_frequency
        data := dw.1
        annOnsets := tr.1.map (fun o => (o : Rat) / cnt.sample_frequency)
        annDurations := tr.2.1.map (fun d => (d : Rat) / cnt.sample_frequency)
        annDescriptions := tr.2.2.1 }

/-! ### Concrete containers used as inputs of the claims -/

/-- A container with one impedance trigger, description `"Impedance"` and
impedance string `"1000 1200 900"`. -/
def cntImpedance : InputCNT :=
  { channels := [("Fp1", "uV", "CPz")]
    sample_frequency := 1000
    nsamples := 2
    samples := [1, 2]
    triggers := [{ code := "0", idx := 7, duration := 2, condition := none,
                   description := some "Impedance", impedance := some "1000 1200 900" }] }

/-- A container with an amplifier disconnect at sample 1000 and the matching
reconnect at sample 5000. -/
def cntDisconnect : InputCNT :=
  { channels := [("Fp1", "uV", "CPz")]
    sample_frequency := 1000
    nsamples := 2
    samples := [1, 2]
    triggers := [{ code := "9001", idx := 1000, duration := 0,
                   condition := some "Amplifier disconnected",
                   description := none, impedance := none },
                 { code := "9002", idx := 5000, duration := 0,
                   condition := some "Amplifier reconnected",
                   description := none, impedance := none }] }

/-- A container with one ordinary trigger of code `"9001"` and no
description. -/
def cnt9001 : InputCNT :=
  { channels := [("Fp1", "uV", "CPz")]
    sample_frequency := 1000
    nsamples := 2
    samples := [1, 2]
    triggers := [{ code := "9001", idx := 3, duration := 1, condition := none,
                   description := none, impedance := none }] }

/-- An ordinary trigger whose description is present but empty. -/
def trigEmptyDesc : Trigger :=
  { code := "9001", idx := 3, duration := 1, condition := none,
    description := some "", impedance := none }

/-- A container with 2 channels and 3 samples, flat block `[1..6]`. -/
def cnt4 : InputCNT :=
  { channels := [("Fp1", "uV", "CPz"), ("Fp2", "uV", "CPz")]
    sample_frequency := 1000
    nsamples := 3
    samples := [1, 2, 3, 4, 5, 6]
    triggers := [] }

/-- A container reporting zero channels and zero samples. -/
def cntEmpty : InputCNT :=
  { channels := [], sample_frequency := 1000, nsamples := 0, samples := [], triggers := [] }

/-- A container with a single channel. -/
def cnt1 : InputCNT :=
  { channels := [("Fp1", "uV", "CPz")]
    sample_frequency := 1000
    nsamples := 1
    samples := [5]
    triggers := [] }

end Antio

deriving instance DecidableEq for Except

namespace Antio

/-! ### Helper lemmas -/

/-- `RawANT.__init__` never succeeds: its trigger-parsing step raises
unconditionally, and every earlier failure also aborts the decode. -/
lemma RawANT_init_isOk_false (cnt : InputCNT) (eog misc : Option Regex) :
    (RawANT_init cnt eog misc).isOk = false := by
  unfold RawANT_init
  rcases h : _parse_data cnt (_parse_channels cnt eog misc).ch_units with e | d <;>
    simp [h, _parse_triggers, bind, Except.bind, Except.isOk, Except.toBool]

/-! ### Characterisation of the unit-scaling loop -/

lemma int16cast_eq_self {i : Nat} (h : i < 32768) : int16cast i = i := by
  unfold int16cast
  have h1 : ((i : Int) + 32768) % 65536 = (i : Int) + 32768 :=
    Int.emod_eq_of_lt (by omega) (by omega)
  rw [h1]
  omega

lemma npTake_small {n i : Nat} (h32 : i < 32768) (hin : i < n) :
    npTake n (int16cast i) = .ok i := by
  rw [int16cast_eq_self h32]
  unfold npTake
  have h0 : (0 : Int) ≤ (i : Int) := Int.natCast_nonneg i
  have h1 : (i : Int) < (n : Int) := by exact_mod_cast hin
  rw [if_pos h0, if_pos h1]
  simp

lemma takeRows_cons_eq (n i : Nat) (is : List Nat) :
    takeRows n (i :: is) =
      (match npTake n (int16cast i) with
       | .error e => .error e
       | .ok r =>
           (match takeRows n is with
            | .error e => .error e
            | .ok rs => .ok (r :: rs))) := by
  unfold takeRows
  simp only [List.foldr_cons]

lemma takeRows_eq_map {n : Nat} {g : Nat → Nat} {l : List Nat}
    (h : ∀ i ∈ l, npTake n (int16cast i) = .ok (g i)) :
    takeRows n l = .ok (l.map g) := by
  induction l with
  | nil => rfl
  | cons i is ih =>
      rw [takeRows_cons_eq, h i (List.mem_cons_self i is),
        ih (fun j hj => h j (List.mem_cons_of_mem i hj))]
      rfl

lemma mem_groupIdxs {ch_units : List String} {u : String} {i : Nat} :
    i ∈ groupIdxs ch_units u ↔ i < ch_units.length ∧ ch_units.getD i "" = u := by
  simp [groupIdxs, List.mem_filter, List.mem_range]

lemma scaleRows_length (d : List (List Rat)) (rows : List Nat) (f : Rat) :
    (scaleRows d rows f).length = d.length := by
  simp [scaleRows]

lemma scaleRows_getD {d : List (List Rat)} {rows : List Nat} {f : Rat} {r : Nat}
    (h : r < d.length) :
    (scaleRows d rows f).getD r []
      = if r ∈ rows then (d.getD r []).map (fun x => x * f) else d.getD r [] := by
  simp [scaleRows, List.getD_eq_getElem?_getD, List.getElem?_map, List.getElem?_range, h]

lemma mem_foldl_insert (l : List String) :
    ∀ (acc : List String) (a : String),
      (a ∈ l.foldl (fun acc u => if u ∈ acc then acc else acc ++ [u]) acc) ↔
        a ∈ acc ∨ a ∈ l := by
  induction l with
  | nil => intro acc a; simp
  | cons u t ih =>
      intro acc a
      rw [List.foldl_cons, ih]
      by_cases hu : u ∈ acc
      · rw [if_pos hu]
        constructor
        · rintro (h | h)
          · exact Or.inl h
          · exact Or.inr (List.mem_cons_of_mem _ h)
        · rintro (h | h)
          · exact Or.inl h
          · rcases List.mem_cons.mp h with rfl | h2
            · exact Or.inl hu
            · exact Or.inr h2
      · rw [if_neg hu]
        simp [List.mem_append, List.mem_cons]
        tauto

lemma nodup_foldl_insert (l : List String) :
    ∀ acc : List String, acc.Nodup →
      (l.foldl (fun acc u => if u ∈ acc then acc else acc ++ [u]) acc).Nodup := by
  induction l with
  | nil => intro acc h; simpa using h
  | cons u t ih =>
      intro acc h
      rw [List.foldl_cons]
      by_cases hu : u ∈ acc
      · rw [if_pos hu]; exact ih acc h
      · rw [if_neg hu]
        apply ih
        rw [List.nodup_append]
        refine ⟨h, List.nodup_singleton u, ?_⟩
        intro x hx hx2
        rcases List.mem_singleton.mp hx2 with rfl
        exact hu hx

lemma mem_insertionKeys {l : List String} {a : String} :
    a ∈ insertionKeys l ↔ a ∈ l := by
  unfold insertionKeys
  rw [mem_foldl_insert]
  simp

lemma nodup_insertionKeys (l : List String) : (insertionKeys l).Nodup :=
  nodup_foldl_insert l [] List.nodup_nil

/-- What one channel row should look like after the scaling loop: multiplied
by the table factor when its unit is in the table, untouched otherwise. -/
def scaledRow (ch_units : List String) (data : List (List Rat)) (r : Nat) : List Rat :=
  match units.lookup (ch_units.getD r "") with
  | some f => (data.getD r []).map (fun x => x * f)
  | none => data.getD r []

lemma scaleStep_some (ch_units : List String) (hn : ch_units.length ≤ 32768)
    (d : List (List Rat)) (w : List String) (hd : d.length = ch_units.length)
    (u : String) (f : Rat) (hu : units.lookup u = some f) :
    scaleStep ch_units (d, w) u = .ok (scaleRows d (groupIdxs ch_units u) f, w) := by
  unfold scaleStep
  rw [hu]
  have htake : takeRows d.length (groupIdxs ch_units u) = .ok (groupIdxs ch_units u) := by
    have h := takeRows_eq_map (n := d.length) (g := id) (l := groupIdxs ch_units u) ?hall
    · simpa using h
    case hall =>
      intro i hi
      rcases mem_groupIdxs.mp hi with ⟨hlt, _⟩
      exact npTake_small (by omega) (by omega)
  rw [htake]
  rfl

lemma scaleStep_none (ch_units : List String) (d : List (List Rat)) (w : List String)
    (u : String) (hu : units.lookup u = none) :
    scaleStep ch_units (d, w) u
      = .ok (d, w ++ ["Unit " ++ u ++ " not recognized, not scaling."]) := by
  unfold scaleStep
  rw [hu]

/-- Characterisation of folding `scaleStep` over a duplicate-free key list:
it succeeds, preserves the row count, scales precisely the rows whose unit
is a processed, recognised key, and appends one warning per unrecognised
key. -/
lemma foldl_scaleStep_char (ch_units : List String) (hn : ch_units.length ≤ 32768)
    (ks : List String) :
    ks.Nodup →
    ∀ (d : List (List Rat)) (w : List String), d.length = ch_units.length →
    ∃ d2 w2,
      ks.foldlM (scaleStep ch_units) (d, w) = .ok (d2, w2)
      ∧ d2.length = ch_units.length
      ∧ (∀ r, r < ch_units.length →
          d2.getD r [] = if ch_units.getD r "" ∈ ks then scaledRow ch_units d r
                         else d.getD r [])
      ∧ w2 = w ++ (ks.filter (fun u => (units.lookup u).isNone)).map
            (fun u => "Unit " ++ u ++ " not recognized, not scaling.") := by
  induction ks with
  | nil =>
      intro _ d w hd
      refine ⟨d, w, rfl, hd, ?_, by simp⟩
      intro r _
      simp
  | cons u ks ih =>
      intro hnd d w hd
      have hu : u ∉ ks := (List.nodup_cons.mp hnd).1
      have hnd2 : ks.Nodup := (List.nodup_cons.mp hnd).2
      rcases hl : units.lookup u with _ | f
      · -- unrecognised unit: row matrix unchanged, one warning appended
        obtain ⟨d2, w2, heq, hlen, hrows, hw⟩ :=
          ih hnd2 d (w ++ ["Unit " ++ u ++ " not recognized, not scaling."]) hd
        refine ⟨d2, w2, ?_, hlen, ?_, ?_⟩
        · have h1 : (u :: ks).foldlM (scaleStep ch_units) (d, w)
              = ks.foldlM (scaleStep ch_units)
                  (d, w ++ ["Unit " ++ u ++ " not recognized, not scaling."]) := by
            rw [List.foldlM_cons]
            rw [scaleStep_none ch_units d w u hl]
            rfl
          rw [h1]
          exact heq
        · intro r hr
          rw [hrows r hr]
          by_cases hru : ch_units.getD r "" = u
          · have hnotks : ch_units.getD r "" ∉ ks := by rw [hru]; exact hu
            have hmem : ch_units.getD r "" ∈ u :: ks := by rw [hru]; exact List.mem_cons_self u ks
            have hsr : scaledRow ch_units d r = d.getD r [] := by
              unfold scaledRow
              rw [hru, hl]
            rw [if_neg hnotks, if_pos hmem, hsr]
          · by_cases hks : ch_units.getD r "" ∈ ks
            · rw [if_pos hks, if_pos (List.mem_cons_of_mem u hks)]
            · rw [if_neg hks, if_neg (fun hmem => by
                rcases List.mem_cons.mp hmem with h | h
                · exact hru h
                · exact hks h)]
        · rw [hw, List.filter_cons, List.append_assoc]
          simp [hl]
      · -- recognised unit: selected rows scaled in place, warnings unchanged
        have hd1 : (scaleRows d (groupIdxs ch_units u) f).length = ch_units.length := by
          rw [scaleRows_length, hd]
        obtain ⟨d2, w2, heq, hlen, hrows, hw⟩ :=
          ih hnd2 (scaleRows d (groupIdxs ch_units u) f) w hd1
        refine ⟨d2, w2, ?_, hlen, ?_, ?_⟩
        · have h1 : (u :: ks).foldlM (scaleStep ch_units) (d, w)
              = ks.foldlM (scaleStep ch_units) (scaleRows d (groupIdxs ch_units u) f, w) := by
            rw [List.foldlM_cons]
            rw [scaleStep_some ch_units hn d w hd u f hl]
            rfl
          rw [h1]
          exact heq
        · intro r hr
          have hrd : r < d.length := by omega
          rw [hrows r hr, scaleRows_getD hrd]
          by_cases hru : ch_units.getD r "" = u
          · have hnotks : ch_units.getD r "" ∉ ks := by rw [hru]; exact hu
            have hmem : ch_units.getD r "" ∈ u :: ks := by rw [hru]; exact List.mem_cons_self u ks
            have hgrp : r ∈ groupIdxs ch_units u := mem_groupIdxs.mpr ⟨hr, hru⟩
            have hsr : scaledRow ch_units d r = (d.getD r []).map (fun x => x * f) := by
              unfold scaledRow
              rw [hru, hl]
            rw [if_neg hnotks, if_pos hgrp, if_pos hmem, hsr]
          · have hgrp : r ∉ groupIdxs ch_units u := by
              intro hmem
              exact hru (mem_groupIdxs.mp hmem).2
            rw [if_neg hgrp]
            have hsr : scaledRow ch_units (scaleRows d (groupIdxs ch_units u) f) r
                = scaledRow ch_units d r := by
              unfold scaledRow
              rw [scaleRows_getD hrd, if_neg hgrp]
            rw [hsr]
            by_cases hks : ch_units.getD r "" ∈ ks
            · rw [if_pos hks, if_pos (List.mem_cons_of_mem u hks)]
            · rw [if_neg hks, if_neg (fun hmem => by
                rcases List.mem_cons.mp hmem with h | h
                · exact hru h
                · exact hks h)]
        · rw [hw, List.filter_cons]
          simp [hl]

/-- Characterisation of the whole scaling loop for matrices whose channel
indices all fit in an int16. -/
lemma applyScaling_char (data : List (List Rat)) (ch_units : List String)
    (hlen : data.length = ch_units.length) (hn : ch_units.length ≤ 32768) :
    ∃ d2 w2,
      applyScaling data ch_units = .ok (d2, w2)
      ∧ d2.length = data.length
      ∧ (∀ r, r < data.length → d2.getD r [] = scaledRow ch_units data r)
      ∧ w2 = ((insertionKeys ch_units).filter (fun u => (units.lookup u).isNone)).map
            (fun u => "Unit " ++ u ++ " not recognized, not scaling.") := by
  obtain ⟨d2, w2, heq, hlen2, hrows, hw⟩ :=
    foldl_scaleStep_char ch_units hn (insertionKeys ch_units)
      (nodup_insertionKeys ch_units) data [] hlen
  refine ⟨d2, w2, heq, by omega, ?_, by simpa using hw⟩
  intro r hr
  have hr2 : r < ch_units.length := by omega
  rw [hrows r hr2, if_pos ?_]
  rw [mem_insertionKeys]
  have : ch_units.getD r "" = ch_units.get ⟨r, hr2⟩ := by
    rw [List.getD_eq_getElem?_getD, List.getElem?_eq_getElem hr2]
    rfl
  rw [this]
  exact List.get_mem ch_units r hr2

/-! ### The scaling loop on very wide recordings -/

/-- 32769 channels, all of unit `"uv"`. -/
def bigUnits : List String := List.replicate 32769 "uv"

/-- One column of data, every channel at value 1, for 32769 channels. -/
def bigData : List (List Rat) := List.replicate 32769 [(1 : Rat)]

/-- 32768 channels, all of unit `"uv"` — every index still fits in int16. -/
def fitUnits : List String := List.replicate 32768 "uv"

/-- One column of data, every channel at value 1, for 32768 channels. -/
def fitData : List (List Rat) := List.replicate 32768 [(1 : Rat)]

/-- The row indices actually selected on 32769 channels: index 32768 wraps
through int16 to -32768, which NumPy resolves to row 32769 - 32768 = 1. -/
def bigRows : List Nat := (List.range 32769).map (fun i => if i = 32768 then 1 else i)

lemma lookup_uv : units.lookup "uv" = some (1 / 1000000) := rfl

lemma getD_replicate {α : Type _} {a d : α} {n i : Nat} (h : i < n) :
    (List.replicate n a).getD i d = a := by
  rw [List.getD_eq_getElem?_getD, List.getElem?_replicate, if_pos h]
  rfl

lemma foldl_insert_replicate (u : String) :
    ∀ (k : Nat) (acc : List String), u ∈ acc →
      (List.replicate k u).foldl (fun acc v => if v ∈ acc then acc else acc ++ [v]) acc
        = acc := by
  intro k
  induction k with
  | zero => intro acc _; rfl
  | succ k ih =>
      intro acc h
      rw [List.replicate_succ, List.foldl_cons, if_pos h]
      exact ih acc h

lemma insertionKeys_replicate (u : String) (k : Nat) :
    insertionKeys (List.replicate (k + 1) u) = [u] := by
  unfold insertionKeys
  rw [List.replicate_succ, List.foldl_cons]
  have h1 : (if u ∈ ([] : List String) then ([] : List String) else [] ++ [u]) = [u] := by
    simp
  rw [h1]
  exact foldl_insert_replicate u k [u] (List.mem_singleton_self u)

lemma groupIdxs_replicate (u : String) (n : Nat) :
    groupIdxs (List.replicate n u) u = List.range n := by
  unfold groupIdxs
  rw [List.length_replicate]
  apply List.filter_eq_self.mpr
  intro i hi
  have hin : i < n := List.mem_range.mp hi
  rw [getD_replicate hin]
  exact beq_self_eq_true u

lemma takeRows_big :
    takeRows 32769 (List.range 32769)
      = .ok ((List.range 32769).map (fun i => if i = 32768 then 1 else i)) := by
  apply takeRows_eq_map
  intro i hi
  have hin : i < 32769 := List.mem_range.mp hi
  by_cases h8 : i = 32768
  · subst h8
    rw [if_pos rfl]
    decide
  · rw [if_neg h8]
    exact npTake_small (by omega) (by omega)

lemma not_mem_bigRows : 32768 ∉ bigRows := by
  intro hmem
  rcases List.mem_map.mp hmem with ⟨i, hi, he⟩
  by_cases h8 : i = 32768
  · subst h8
    simp at he
  · rw [if_neg h8] at he
    exact h8 he

lemma mem_bigRows {r : Nat} (h : r < 32768) : r ∈ bigRows :=
  List.mem_map.mpr ⟨r, List.mem_range.mpr (by omega), by rw [if_neg (by omega)]⟩

lemma scaleStep_some_of_takeRows (ch_units : List String) (d : List (List Rat))
    (w : List String) (u : String) (f : Rat) (hu : units.lookup u = some f)
    (rows : List Nat) (htake : takeRows d.length (groupIdxs ch_units u) = .ok rows) :
    scaleStep ch_units (d, w) u = .ok (scaleRows d rows f, w) := by
  unfold scaleStep
  rw [hu, htake]
  rfl

/-- On the 32769-channel input the loop succeeds but scales the wrapped row
set `bigRows` — which misses row 32768 and hits row 1 in its place. -/
lemma applyScaling_big :
    applyScaling bigData bigUnits = .ok (scaleRows bigData bigRows (1 / 1000000), []) := by
  have hik : insertionKeys bigUnits = ["uv"] := insertionKeys_replicate "uv" 32768
  have hlen : bigData.length = 32769 := by
    unfold bigData
    rw [List.length_replicate]
  have hgrp : groupIdxs bigUnits "uv" = List.range 32769 := groupIdxs_replicate "uv" 32769
  have htake : takeRows bigData.length (groupIdxs bigUnits "uv") = .ok bigRows := by
    rw [hlen, hgrp]
    exact takeRows_big
  have hstep := scaleStep_some_of_takeRows bigUnits bigData [] "uv" (1 / 1000000)
    lookup_uv bigRows htake
  unfold applyScaling
  rw [hik, List.foldlM_cons, hstep]
  rfl

lemma bigResult_row32768 :
    (scaleRows bigData bigRows (1 / 1000000)).getD 32768 [] = [(1 : Rat)] := by
  have h : (32768 : Nat) < bigData.length := by
    unfold bigData
    rw [List.length_replicate]
    omega
  rw [scaleRows_getD h, if_neg not_mem_bigRows]
  exact getD_replicate (by omega)

lemma bigResult_row1 :
    (scaleRows bigData bigRows (1 / 1000000)).getD 1 []
      = [(1 : Rat) * (1 / 1000000)] := by
  have h : (1 : Nat) < bigData.length := by
    unfold bigData
    rw [List.length_replicate]
    omega
  rw [scaleRows_getD h, if_pos (mem_bigRows (by omega))]
  rw [show bigData.getD 1 [] = [(1 : Rat)] from getD_replicate (by omega)]
  rfl

lemma toOption_ok {e a : Type _} (x : a) : (Except.ok x : Except e a).toOption = some x := rfl

/-! ### Claims -/

/-- C1: the spec requires an impedance trigger (description `"Impedance"`,
impedance `"1000 1200 900"`) to populate `ImpedanceReading[sampleIndex]` and
append one `BAD_impedance` annotation.  The code instead raises: the
accumulator unpack of io.py line 130 raises `ValueError` on every call, and
even with that line repaired the impedance branch calls `.append` on the
description string (line 145), raising `AttributeError` — although the
impedance string itself parses fine as whitespace-separated floats. -/
theorem claim1_impedance_code_bug :
    _parse_triggers cntImpedance = .error "ValueError: too many values to unpack (expected 3)"
    ∧ _parse_triggers_body cntImpedance.triggers
        = .error "AttributeError: str object has no attribute append"
    ∧ parseFloats "1000 1200 900" = some [1000, 1200, 900] := by
  refine ⟨rfl, by decide, ?_⟩
  simp [parseFloats, parseFloatChars, splitSpaces, parseFloatList, digitsVal]

/-- C2: on every container, `_parse_triggers` raises
`ValueError: too many values to unpack (expected 3)` at its accumulator
initialisation (four empty lists unpacked into three names), before
examining any trigger; consequently `RawANT.__init__` never returns a
decoded recording. -/
theorem claim2_unpack_always_raises (cnt : InputCNT) (eog misc : Option Regex) :
    _parse_triggers cnt = .error "ValueError: too many values to unpack (expected 3)"
    ∧ (RawANT_init cnt eog misc).isOk = false :=
  ⟨rfl, RawANT_init_isOk_false cnt eog misc⟩

/-- C3: the spec requires the disconnect/reconnect pair (1000, 5000) to
yield exactly one derived bad-connectivity span and unmatched pairs to be
warned about.  The code raises `ValueError` before the loop; and even with
the unpack repaired, the loop only collects the two sample indices into the
`disconnect` dict, which the function's return statement discards — the
accumulated annotation streams stay empty and no pairing, span or warning
is ever produced. -/
theorem claim3_disconnect_code_bug :
    _parse_triggers cntDisconnect = .error "ValueError: too many values to unpack (expected 3)"
    ∧ _parse_triggers_body cntDisconnect.triggers
        = .ok { onsets := [], durations := [], descriptions := [], impedances := [],
                disconnectStart := [1000], disconnectStop := [5000] } :=
  ⟨rfl, by decide⟩

/-- C4: the spec and the inline comment of io.py line 112 promise a matrix
of shape `(n_channels, n_samples)` with one row per channel.  On a container
with 2 channels and 3 samples, `np.array(data).reshape(n_channels, -1).T`
produces 3 rows of 2 entries — the transpose of the documented shape — and
the subsequent per-channel scaling touches rows 0 and 1 of that matrix,
i.e. the first two samples rather than the two channels. -/
theorem claim4_shape_code_bug :
    (_parse_channels cnt4 none none).ch_units = ["uv", "uv"]
    ∧ _parse_data cnt4 ["uv", "uv"]
        = .ok ([[1/1000000, 4/1000000], [2/1000000, 5/1000000], [3, 6]], [])
    ∧ cnt4.channels.length = 2 ∧ cnt4.nsamples = 3 := by
  refine ⟨by decide, ?_, rfl, rfl⟩
  simp [_parse_data, cnt4, reshapeT, applyScaling, insertionKeys, scaleStep, groupIdxs,
    scaleRows, takeRows, npTake, int16cast, units, bind, Except.bind, pure, Except.pure,
    List.range_succ]
  norm_num

/-- C7 counterexample: with zero channels the set of distinct references is
empty, so the claim "warning iff size > 1" demands no warning and an
informational note; the code computes `len(set([])) == 1 → False` and emits
the non-uniform-reference warning (and no note). -/
theorem claim7_counterexample :
    (_parse_channels cntEmpty none none).refWarning = true
    ∧ (_parse_channels cntEmpty none none).ch_refs.dedup.length = 0
    ∧ ¬ 1 < (_parse_channels cntEmpty none none).ch_refs.dedup.length
    ∧ (_parse_channels cntEmpty none none).refNote = none := by
  refine ⟨by decide, by decide, by decide, by decide⟩

/-- C8: the spec requires an ordinary trigger with code `"9001"` and no
description to yield an annotation labelled `"9001"`.  `_parse_triggers`
raises `ValueError` at its accumulator unpack before appending anything.
The rest of the loop body, run with the unpack repaired, does append onset,
duration and the code as label — though its fallback tests `description is
not None`, not emptiness: an empty description string is used verbatim as
the label instead of the code. -/
theorem claim8_ordinary_code_bug :
    _parse_triggers cnt9001 = .error "ValueError: too many values to unpack (expected 3)"
    ∧ _parse_triggers_body cnt9001.triggers
        = .ok { onsets := [3], durations := [1], descriptions := ["9001"], impedances := [],
                disconnectStart := [], disconnectStop := [] }
    ∧ _parse_triggers_body [trigEmptyDesc]
        = .ok { onsets := [3], durations := [1], descriptions := [""], impedances := [],
                disconnectStart := [], disconnectStop := [] } :=
  ⟨rfl, by decide, by decide⟩

/-- C9: a container reporting zero channels or zero samples never yields a
decoded recording: the decode aborts with an exception (for zero channels
already at the reshape of the data-parsing step, whose `-1` cannot be
resolved on an empty block; in every remaining case at the trigger-parsing
step) and no partial `Recording` is returned. -/
theorem claim9_zero_fails (cnt : InputCNT) (eog misc : Option Regex)
    (_h : cnt.channels.length = 0 ∨ cnt.nsamples = 0) :
    (RawANT_init cnt eog misc).isOk = false
    ∧ (cnt.channels.length = 0 →
        _parse_data cnt (_parse_channels cnt eog misc).ch_units
          = .error "ValueError: cannot reshape array") := by
  refine ⟨RawANT_init_isOk_false cnt eog misc, fun h0 => ?_⟩
  simp [_parse_data, reshapeT, h0, bind, Except.bind]

/-- The cardinality of `set(l)` computed by `len(set(ch_refs))` is 1 exactly
when the list is non-empty with all elements equal. -/
lemma dedup_length_eq_one_iff (l : List String) :
    l.dedup.length = 1 ↔ l ≠ [] ∧ ∀ x ∈ l, ∀ y ∈ l, x = y := by
  rw [← List.card_toFinset, Finset.card_eq_one]
  constructor
  · rintro ⟨a, ha⟩
    have hmem : ∀ x ∈ l, x = a := by
      intro x hx
      have hx2 : x ∈ l.toFinset := List.mem_toFinset.mpr hx
      rw [ha] at hx2
      simpa using hx2
    refine ⟨?_, fun x hx y hy => by rw [hmem x hx, hmem y hy]⟩
    intro hnil
    rw [hnil] at ha
    exact Finset.singleton_ne_empty a ha.symm
  · rintro ⟨hne, hall⟩
    rcases l with _ | ⟨r, t⟩
    · exact absurd rfl hne
    · refine ⟨r, Finset.Subset.antisymm ?_ ?_⟩
      · intro x hx
        have hx2 : x ∈ r :: t := List.mem_toFinset.mp hx
        have hxr := hall x hx2 r (List.mem_cons_self r t)
        simp [hxr]
      · intro x hx
        have hxr : x = r := by simpa using hx
        simp [hxr]

lemma parse_channels_ch_refs (cnt : InputCNT) (eog misc : Option Regex) :
    (_parse_channels cnt eog misc).ch_refs = cnt.channels.map (fun c => c.2.2) := rfl

lemma parse_channels_refWarning (cnt : InputCNT) (eog misc : Option Regex) :
    (_parse_channels cnt eog misc).refWarning
      = !decide ((cnt.channels.map (fun c => c.2.2)).dedup.length = 1) := rfl

lemma parse_channels_refNote (cnt : InputCNT) (eog misc : Option Regex) :
    (_parse_channels cnt eog misc).refNote
      = if (cnt.channels.map (fun c => c.2.2)).dedup.length = 1
        then some ((cnt.channels.map (fun c => c.2.2)).getD 0 "") else none := rfl

/-- C7 amended: after processing all channels, the classifier warns exactly
when the number of distinct references over all channels is not 1 — i.e.
also for an empty channel list, not only for size greater than 1 — and in
the remaining case (a non-empty list with a single common reference) emits
the informational note naming that reference.  (There is no configured
mode: the reference set is always taken over all channels, not only the
eeg-typed ones.) -/
theorem claim7_amended (cnt : InputCNT) (eog misc : Option Regex) :
    ((_parse_channels cnt eog misc).refWarning = true ↔
      ¬((_parse_channels cnt eog misc).ch_refs ≠ [] ∧
        ∀ x ∈ (_parse_channels cnt eog misc).ch_refs,
          ∀ y ∈ (_parse_channels cnt eog misc).ch_refs, x = y))
    ∧ ((_parse_channels cnt eog misc).refWarning = false →
        ∃ r, (_parse_channels cnt eog misc).refNote = some r ∧
          ∀ x ∈ (_parse_channels cnt eog misc).ch_refs, x = r) := by
  rw [parse_channels_ch_refs, parse_channels_refWarning, parse_channels_refNote]
  constructor
  · rw [← dedup_length_eq_one_iff]
    simp
  · intro hw
    have h1 : (cnt.channels.map (fun c => c.2.2)).dedup.length = 1 := by
      simpa using hw
    rcases (dedup_length_eq_one_iff _).mp h1 with ⟨hne, hall⟩
    rcases hl : cnt.channels.map (fun c => c.2.2) with _ | ⟨r, t⟩
    · exact absurd hl hne
    · refine ⟨r, ?_, ?_⟩
      · rw [hl] at h1 ⊢
        simp [h1]
      · intro x hx
        rw [hl] at hall
        exact hall x (hl ▸ hx) r (List.mem_cons_self r t)

/-- Witness for C7 amended at a single-channel container: no warning, and
the note names the common reference `"CPz"`. -/
theorem claim7_amended_witness :
    (_parse_channels cnt1 none none).refWarning = false
    ∧ ∃ r, (_parse_channels cnt1 none none).refNote = some r ∧
        ∀ x ∈ (_parse_channels cnt1 none none).ch_refs, x = r :=
  ⟨by decide, (claim7_amended cnt1 none none).2 (by decide)⟩

/-- C5: channel classification applies `re.fullmatch` — whole-name match,
not substring — trying the `eog` pattern before `misc` and falling through
to `"eeg"`: the name `"EOG1x"` is not classified eog under pattern `"EOG"`
but is under `"EOG.*"`; a name matched by both patterns is eog; a name
matched only by `misc` is misc; a name matched by neither is eeg. -/
theorem claim5_fullmatch_order (eog misc : Regex) (name : String) :
    classifyChannel (some reEOG) none "EOG1x" = "eeg"
    ∧ classifyChannel (some reEOGdotstar) none "EOG1x" = "eog"
    ∧ (re_fullmatch eog name = true → re_fullmatch misc name = true →
        classifyChannel (some eog) (some misc) name = "eog")
    ∧ (re_fullmatch eog name = false → re_fullmatch misc name = true →
        classifyChannel (some eog) (some misc) name = "misc")
    ∧ (re_fullmatch eog name = false → re_fullmatch misc name = false →
        classifyChannel (some eog) (some misc) name = "eeg") := by
  refine ⟨by decide, by decide, ?_, ?_, ?_⟩ <;>
    intro h1 h2 <;> simp [classifyChannel, h1, h2]

/-- Witness for C5: `"EOG1x"` fully matches `"EOG.*"`, and with both the
eog and the misc pattern set to `"EOG.*"` the eog branch wins. -/
theorem claim5_fullmatch_order_witness :
    re_fullmatch reEOGdotstar "EOG1x" = true
    ∧ classifyChannel (some reEOGdotstar) (some reEOGdotstar) "EOG1x" = "eog" :=
  ⟨by decide,
   (claim5_fullmatch_order reEOGdotstar reEOGdotstar "EOG1x").2.2.1 (by decide) (by decide)⟩

/-- C6 counterexample: on 32769 channels that all carry the recognised unit
`"uv"`, the int16 cast of the collected indices makes the claim "rows with
unit uv become exactly original × 1e-6" false: the scaling succeeds but row
32768 keeps its original value `[1]` instead of `[1/1000000]`. -/
theorem claim6_counterexample :
    bigData.length = bigUnits.length
    ∧ bigUnits.getD 32768 "" = "uv"
    ∧ (applyScaling bigData bigUnits).toOption.map (fun p => p.1.getD 32768 [])
        = some [(1 : Rat)]
    ∧ (bigData.getD 32768 []).map (fun x => x * (1 / 1000000)) = [(1 : Rat) / 1000000]
    ∧ [(1 : Rat)] ≠ [(1 : Rat) / 1000000] := by
  refine ⟨?_, ?_, ?_, ?_, ?_⟩
  · unfold bigData bigUnits
    rw [List.length_replicate, List.length_replicate]
  · exact getD_replicate (by omega)
  · rw [applyScaling_big, toOption_ok, Option.map_some']
    simp only [bigResult_row32768]
  · rw [show bigData.getD 32768 [] = [(1 : Rat)] from getD_replicate (by omega)]
    norm_num
  · intro h
    have h1 : (1 : Rat) = 1 / 1000000 := by injection h
    norm_num at h1

/-- C6 amended: for every sample matrix (one row per channel) and unit list
of equal length with at most 32768 channels — so every collected index
survives the int16 cast — the scaling loop succeeds; rows whose unit is in
the table are multiplied elementwise by the table factor (rows of unit
`"uv"` exactly by 1e-6), rows with unrecognised units are left unscaled, and
exactly one warning is recorded per distinct unrecognised unit. -/
theorem claim6_amended (data : List (List Rat)) (ch_units : List String)
    (hlen : data.length = ch_units.length) (hn : ch_units.length ≤ 32768) :
    ∃ d2 w2,
      applyScaling data ch_units = .ok (d2, w2)
      ∧ d2.length = data.length
      ∧ (∀ r, r < data.length →
          d2.getD r [] = match units.lookup (ch_units.getD r "") with
            | some f => (data.getD r []).map (fun x => x * f)
            | none => data.getD r [])
      ∧ (∀ r, r < data.length → ch_units.getD r "" = "uv" →
          d2.getD r [] = (data.getD r []).map (fun x => x * (1 / 1000000)))
      ∧ w2 = ((insertionKeys ch_units).filter (fun u => (units.lookup u).isNone)).map
            (fun u => "Unit " ++ u ++ " not recognized, not scaling.") := by
  obtain ⟨d2, w2, heq, hl2, hrows, hw⟩ := applyScaling_char data ch_units hlen hn
  refine ⟨d2, w2, heq, hl2, fun r hr => hrows r hr, ?_, hw⟩
  intro r hr hu
  rw [hrows r hr]
  unfold scaledRow
  rw [hu, lookup_uv]

/-- Witness for C6 amended on a 2-channel matrix with units
`["uv", "xx"]`. -/
theorem claim6_amended_witness :
    (([[(1 : Rat), 2], [3]] : List (List Rat)).length = (["uv", "xx"] : List String).length
      ∧ (["uv", "xx"] : List String).length ≤ 32768)
    ∧ ∃ d2 w2,
        applyScaling [[(1 : Rat), 2], [3]] ["uv", "xx"] = .ok (d2, w2)
        ∧ d2.length = ([[(1 : Rat), 2], [3]] : List (List Rat)).length
        ∧ (∀ r, r < ([[(1 : Rat), 2], [3]] : List (List Rat)).length →
            d2.getD r [] = match units.lookup ((["uv", "xx"] : List String).getD r "") with
              | some f => (([[(1 : Rat), 2], [3]] : List (List Rat)).getD r []).map
                  (fun x => x * f)
              | none => ([[(1 : Rat), 2], [3]] : List (List Rat)).getD r [])
        ∧ (∀ r, r < ([[(1 : Rat), 2], [3]] : List (List Rat)).length →
            (["uv", "xx"] : List String).getD r "" = "uv" →
            d2.getD r [] = (([[(1 : Rat), 2], [3]] : List (List Rat)).getD r []).map
              (fun x => x * (1 / 1000000)))
        ∧ w2 = ((insertionKeys ["uv", "xx"]).filter (fun u => (units.lookup u).isNone)).map
              (fun u => "Unit " ++ u ++ " not recognized, not scaling.") :=
  ⟨⟨rfl, by norm_num⟩, claim6_amended [[(1 : Rat), 2], [3]] ["uv", "xx"] rfl (by norm_num)⟩

/-- C10 counterexample: with exactly 32768 channels sharing the recognised
unit `"uv"`, every channel index 0..32767 still fits in an int16 — nothing
wraps (32767 is the int16 maximum) and exactly the right rows are scaled:
the loop returns every row multiplied by 1e-6 and no warnings. -/
theorem claim10_counterexample :
    applyScaling fitData fitUnits
      = .ok (List.replicate 32768 [(1 : Rat) / 1000000], [])
    ∧ int16cast 32767 = 32767 := by
  constructor
  · have hfitlen : fitData.length = 32768 := by
      unfold fitData
      rw [List.length_replicate]
    have hfitulen : fitUnits.length = 32768 := by
      unfold fitUnits
      rw [List.length_replicate]
    obtain ⟨d2, w2, heq, hl2, hrows, hw⟩ :=
      applyScaling_char fitData fitUnits (by omega) (by omega)
    have hw2 : w2 = [] := by
      rw [hw, show insertionKeys fitUnits = ["uv"] from insertionKeys_replicate "uv" 32767]
      rw [List.filter_cons, lookup_uv]
      rfl
    have hd2 : d2 = List.replicate 32768 [(1 : Rat) / 1000000] := by
      apply List.eq_replicate_iff.mpr
      refine ⟨by omega, ?_⟩
      intro b hb
      rcases List.mem_iff_getElem.mp hb with ⟨i, hilt, hbi⟩
      have hi2 : i < fitData.length := by omega
      have hgd : d2.getD i [] = b := by
        rw [List.getD_eq_getElem?_getD, List.getElem?_eq_getElem hilt]
        exact hbi
      have hrow := hrows i hi2
      rw [hgd] at hrow
      rw [hrow]
      unfold scaledRow
      rw [show fitUnits.getD i "" = "uv" from getD_replicate (by omega), lookup_uv]
      rw [show fitData.getD i [] = [(1 : Rat)] from getD_replicate (by omega)]
      show [(1 : Rat) * (1 / 1000000)] = [(1 : Rat) / 1000000]
      norm_num
    rw [heq, hd2, hw2]
  · decide

/-- C10 amended: the index cast to `np.int16` is harmless exactly while
every channel index fits: for at most 32768 channels each index resolves to
itself.  With more than 32768 channels sharing a recognised unit the index
32768 occurs and wraps to -32768, which NumPy resolves against the end of
the first axis: on the 32769-channel `"uv"` input, row 32768 keeps its
original value (it is never selected) while row 1 is selected in its place
and carries the scaled value. -/
theorem claim10_amended :
    (∀ n i : Nat, i < n → n ≤ 32768 → npTake n (int16cast i) = .ok i)
    ∧ int16cast 32768 = -32768
    ∧ npTake 32769 (int16cast 32768) = .ok 1
    ∧ (applyScaling bigData bigUnits).toOption.map (fun p => p.1.getD 32768 [])
        = some [(1 : Rat)]
    ∧ (applyScaling bigData bigUnits).toOption.map (fun p => p.1.getD 1 [])
        = some [(1 : Rat) * (1 / 1000000)] := by
  refine ⟨fun n i hin hn => npTake_small (by omega) hin, by decide, by decide, ?_, ?_⟩
  · rw [applyScaling_big, toOption_ok, Option.map_some']
    simp only [bigResult_row32768]
  · rw [applyScaling_big, toOption_ok, Option.map_some']
    simp only [bigResult_row1]

/-- Witness for C10 amended: index 3 of a 5-row matrix resolves to itself. -/
theorem claim10_amended_witness :
    ((3 : Nat) < 5 ∧ (5 : Nat) ≤ 32768) ∧ npTake 5 (int16cast 3) = .ok 3 :=
  ⟨⟨by norm_num, by norm_num⟩, claim10_amended.1 5 3 (by norm_num) (by norm_num)⟩

/-- Witness for C9 at the concrete empty container. -/
theorem claim9_zero_fails_witness :
    (cntEmpty.channels.length = 0 ∨ cntEmpty.nsamples = 0)
    ∧ (RawANT_init cntEmpty none none).isOk = false
    ∧ (cntEmpty.channels.length = 0 →
        _parse_data cntEmpty (_parse_channels cntEmpty none none).ch_units
          = .error "ValueError: cannot reshape array") :=
  ⟨Or.inl rfl,
   (claim9_zero_fails cntEmpty none none (Or.inl rfl)).1,
   (claim9_zero_fails cntEmpty none none (Or.inl rfl)).2⟩

end Antio
